import Mathlib

/-!
Shallow embedding of `src/hooks/useStreamingResponse.ts` (the Stream
Controller of the repository): a React hook that reads a streaming HTTP
response chunk by chunk, splits each decoded chunk on newlines, parses
`data: {json}` records, shallow-merges the parsed objects into an
accumulated result, and drives a connection-status state machine
(idle / connecting / connected / completed / error / stopped).

JavaScript values produced by `JSON.parse` are modelled by the inductive
`Json`; JS objects carry their fields as an insertion-ordered,
duplicate-free association list, exactly as `JSON.parse` produces them
(duplicate keys: first position, last value).  Observer callbacks
(`onData`, `onError`, `onComplete`, `onStatusChange`) are modelled as an
emitted event list.  The transport is modelled as the list of outcomes of
successive `reader.read()` calls: a decoded chunk string, an AbortError
rejection, or another rejection.
-/

namespace Streaming

/-- A JSON value as produced by `JSON.parse`.  Numbers are restricted to
integers (the fragment the repository's protocol uses). -/
inductive Json where
  | null : Json
  | bool (b : Bool) : Json
  | num (n : Int) : Json
  | str (s : String) : Json
  | arr (elems : List Json) : Json
  | obj (fields : List (String × Json)) : Json

/-- JS property write used to model object-key collision: if the key is
already present, the value is replaced in place (the key keeps its
position); otherwise the pair is appended.  This is both how `JSON.parse`
resolves duplicate keys and how object spread `\x7b...a, ...b\x7d` merges. -/
def setKey (fields : List (String × Json)) (k : String) (v : Json) :
    List (String × Json) :=
  if fields.any (fun p => p.1 = k) then
    fields.map (fun p => if p.1 = k then (k, v) else p)
  else
    fields ++ [(k, v)]

/-- Shallow merge of JS object spread `\x7b...prev, ...extra\x7d`: the keys of
`extra` are written left to right into `prev`, later keys overwriting
earlier ones of the same name, fresh keys appended in order. -/
def mergeObj (prev extra : List (String × Json)) : List (String × Json) :=
  extra.foldl (fun acc p => setKey acc p.1 p.2) prev

/-- Characters skipped by the JSON whitespace rule. -/
def skipWs : List Char → List Char
  | c :: rest =>
    if c = ' ' ∨ c = '\n' ∨ c = '\t' ∨ c = '\r' then skipWs rest
    else c :: rest
  | [] => []

/-- Model of JS `String.prototype.trim` (ASCII whitespace, which covers
the protocol's line endings): drops leading and trailing whitespace. -/
def strTrim (s : String) : String :=
  String.mk (skipWs (skipWs s.data.reverse).reverse)

/-- Model of JS `String.prototype.slice(n)`: drops the first `n`
characters. -/
def strDrop (s : String) (n : Nat) : String :=
  String.mk (s.data.drop n)

/-- Whether the first list is a prefix of the second. -/
def isPrefixList : List Char → List Char → Bool
  | [], _ => true
  | _ :: _, [] => false
  | p :: ps, c :: cs => p = c && isPrefixList ps cs

/-- Model of JS `String.prototype.startsWith`. -/
def strStartsWith (s pre : String) : Bool :=
  isPrefixList pre.data s.data

/-- Splitting a character list at every newline, keeping empty segments —
the semantics of JS `String.prototype.split("\n")`. -/
def splitLinesChars : List Char → List (List Char)
  | [] => [[]]
  | c :: rest =>
    if c = '\n' then [] :: splitLinesChars rest
    else
      match splitLinesChars rest with
      | l :: ls => (c :: l) :: ls
      | [] => [[c]]

/-- Model of JS `chunk.split("\n")`. -/
def strSplitLines (s : String) : List String :=
  (splitLinesChars s.data).map String.mk

/-- The JSON string escape table: each escape letter with the character
it denotes. -/
def escTable : List (Char × Char) :=
  [('"', '"'), ('\\', '\\'), ('/', '/'), ('n', '\n'), ('t', '\t'), ('r', '\r'),
   ('b', Char.ofNat 8), ('f', Char.ofNat 12)]

/-- Translation of a JSON string escape character via the table. -/
def escChar (e : Char) : Option Char :=
  (escTable.find? (fun p => p.1 = e)).map (fun p => p.2)

/-- Parses the remainder of a JSON string literal (the opening quote already
consumed): returns the string's characters and the input after the closing
quote. -/
def parseStringRest : List Char → Option (List Char × List Char)
  | [] => none
  | '"' :: rest => some ([], rest)
  | '\\' :: e :: rest =>
    match escChar e with
    | some c => (parseStringRest rest).map (fun p => (c :: p.1, p.2))
    | none => none
  | c :: rest => (parseStringRest rest).map (fun p => (c :: p.1, p.2))

/-- Takes the leading run of decimal digits. -/
def takeDigits : List Char → List Char × List Char
  | c :: rest =>
    if c.isDigit then
      let p := takeDigits rest
      (c :: p.1, p.2)
    else ([], c :: rest)
  | [] => ([], [])

/-- Numeric value of a digit run. -/
def digitsToNat (ds : List Char) : Nat :=
  ds.foldl (fun n c => n * 10 + (c.toNat - 48)) 0

/-- Fuel-indexed recursive-descent parser for one JSON value; returns the
value and the unconsumed input.  Arrays and objects recurse through the
fuel: the tail of a comma-separated sequence is parsed by re-entering the
parser on the reconstructed bracketed tail. -/
def parseVal : Nat → List Char → Option (Json × List Char)
  | 0, _ => none
  | fuel + 1, cs =>
    match skipWs cs with
    | 'n' :: 'u' :: 'l' :: 'l' :: rest => some (Json.null, rest)
    | 't' :: 'r' :: 'u' :: 'e' :: rest => some (Json.bool true, rest)
    | 'f' :: 'a' :: 'l' :: 's' :: 'e' :: rest => some (Json.bool false, rest)
    | '"' :: rest =>
      match parseStringRest rest with
      | some (csStr, rest') => some (Json.str (String.mk csStr), rest')
      | none => none
    | '-' :: rest =>
      match takeDigits rest with
      | ([], _) => none
      | (ds, rest') => some (Json.num (-(digitsToNat ds : Int)), rest')
    | '[' :: rest =>
      match skipWs rest with
      | ']' :: rest' => some (Json.arr [], rest')
      | _ =>
        match parseVal fuel rest with
        | none => none
        | some (j, rest') =>
          match skipWs rest' with
          | ']' :: rest'' => some (Json.arr [j], rest'')
          | ',' :: rest'' =>
            match parseVal fuel ('[' :: rest'') with
            | some (Json.arr xs, rem) => some (Json.arr (j :: xs), rem)
            | _ => none
          | _ => none
    | '{' :: rest =>
      match skipWs rest with
      | '}' :: rest' => some (Json.obj [], rest')
      | '"' :: rest' =>
        match parseStringRest rest' with
        | none => none
        | some (keyCs, afterKey) =>
          match skipWs afterKey with
          | ':' :: afterColon =>
            match parseVal fuel afterColon with
            | none => none
            | some (v, afterVal) =>
              match skipWs afterVal with
              | '}' :: rest'' => some (Json.obj [(String.mk keyCs, v)], rest'')
              | ',' :: rest'' =>
                match parseVal fuel ('{' :: rest'') with
                | some (Json.obj tailFields, rem) =>
                  some (Json.obj (mergeObj [(String.mk keyCs, v)] tailFields), rem)
                | _ => none
              | _ => none
          | _ => none
      | _ => none
    | c :: rest =>
      if c.isDigit then
        match takeDigits (c :: rest) with
        | ([], _) => none
        | (ds, rest') => some (Json.num (digitsToNat ds : Int), rest')
      else none
    | [] => none

/-- Model of `JSON.parse`: the whole input (up to surrounding whitespace)
must be one JSON value, otherwise the parse throws (`none`). -/
def jsonParse (s : String) : Option Json :=
  match parseVal (s.length + 1) s.data with
  | some (j, rest) => if skipWs rest = [] then some j else none
  | none => none

/-- JS truthiness of a parsed JSON value (`data && ...`). -/
def jsTruthy : Json → Bool
  | Json.null => false
  | Json.bool b => b
  | Json.num n => n ≠ 0
  | Json.str s => s ≠ ""
  | Json.arr _ => true
  | Json.obj _ => true

/-- Whether `typeof data === "object"` holds for a parsed JSON value
(objects, arrays and `null`). -/
def jsTypeofObject : Json → Bool
  | Json.null => true
  | Json.arr _ => true
  | Json.obj _ => true
  | _ => false

/-- JS property read `data[k]` on a parsed JSON value: a field of an
object, otherwise `undefined` (`none`).  (Reading a property of `null`
throws in JS; the caller models that separately.) -/
def jsGetField (j : Json) (k : String) : Option Json :=
  match j with
  | Json.obj fields => (fields.find? (fun p => p.1 = k)).map (fun p => p.2)
  | _ => none

/-- The key/value pairs contributed by JS object spread `...v`: an object
contributes its fields, an array its index-keyed elements, a string its
index-keyed characters, and primitives nothing. -/
def jsSpreadFields : Json → List (String × Json)
  | Json.obj fields => fields
  | Json.arr elems => elems.enum.map (fun p => (toString p.1, p.2))
  | Json.str s => s.data.enum.map (fun p => (toString p.1, Json.str (String.mk [p.2])))
  | _ => []

/-- Spread of a possibly-`undefined` JS value (`...data.object` when the
field is absent spreads nothing). -/
def spreadOptFields : Option Json → List (String × Json)
  | some j => jsSpreadFields j
  | none => []

/-- The `ConnectionStatus` union type of the hook. -/
inductive ConnectionStatus where
  | idle
  | connecting
  | connected
  | completed
  | error
  | stopped
deriving DecidableEq, Repr

/-- The observable `StreamingState` of the hook.  The generic accumulated
`data` object is modelled as an insertion-ordered association list. -/
structure StreamState where
  data : List (String × Json)
  isStreaming : Bool
  error : Option String
  connectionStatus : ConnectionStatus

/-- An observer notification: one invocation of `onData`, `onError`,
`onComplete` or `onStatusChange`.  `onData none` is a call with the JS
value `undefined`. -/
inductive Event where
  | onData (payload : Option Json)
  | onError (message : String)
  | onComplete
  | onStatusChange (status : ConnectionStatus)

/-- Whether the per-line loop falls through to the next line or the
enclosing `processStream` call returned early. -/
inductive LineRes where
  | next
  | halt
deriving DecidableEq, Repr

/-- Outcome of one `reader.read()` call: a decoded chunk of text, a
rejection with `AbortError` (cancellation), or a rejection with any other
error.  End-of-stream (`done`) is the end of the list. -/
inductive ReadEvent where
  | chunk (text : String)
  | abort
  | fail

/-- The unconditional bare-object step of the `try` block: if the parsed
value is truthy and of `typeof` "object", shallow-merge it into the
accumulated data and notify `onData` with it; otherwise leave the state
alone. -/
def mergeStep (st : StreamState) (j : Json) : StreamState × List Event :=
  if jsTruthy j && jsTypeofObject j then
    ({ st with data := mergeObj st.data (jsSpreadFields j) },
     [Event.onData (some j)])
  else (st, [])

/-- Body of the `try` block after a successful `JSON.parse`: the
unconditional `mergeStep`, then the dispatch on the `type` discriminator —
`"object"`: additionally merge the nested `object` payload and notify
with it; `"finish"`: complete and return out of `processStream`. -/
def handleParsed (st : StreamState) (j : Json) : StreamState × List Event × LineRes :=
  match jsGetField j "type" with
  | some (Json.str t) =>
    if t = "object" then
      ({ (mergeStep st j).1 with
          data := mergeObj (mergeStep st j).1.data (spreadOptFields (jsGetField j "object")) },
       (mergeStep st j).2 ++ [Event.onData (jsGetField j "object")], LineRes.next)
    else if t = "finish" then
      ({ (mergeStep st j).1 with
          connectionStatus := ConnectionStatus.completed
          isStreaming := false },
       (mergeStep st j).2 ++ [Event.onStatusChange ConnectionStatus.completed, Event.onComplete],
       LineRes.halt)
    else ((mergeStep st j).1, (mergeStep st j).2, LineRes.next)
  | _ => ((mergeStep st j).1, (mergeStep st j).2, LineRes.next)

/-- Body of the `for (const line of lines)` loop of `processStream`:
skip blank lines, require the `data: ` prefix, handle the `[DONE]`
sentinel, `JSON.parse` the remainder (a failure, including the JS
`TypeError` thrown by `data.type` when the value is `null`, is caught and
skipped), and hand a parsed value to `handleParsed`. -/
def processLine (st : StreamState) (line : String) :
    StreamState × List Event × LineRes :=
  if strTrim line = "" then (st, [], LineRes.next)
  else if strStartsWith line "data: " then
    if strTrim (strDrop line 6) = "[DONE]" then
      ({ st with connectionStatus := ConnectionStatus.completed, isStreaming := false },
       [Event.onStatusChange ConnectionStatus.completed, Event.onComplete], LineRes.halt)
    else
      match jsonParse (strTrim (strDrop line 6)) with
      | none => (st, [], LineRes.next)
      | some j => handleParsed st j
  else (st, [], LineRes.next)

/-- The per-chunk line loop: runs `processLine` over the lines in order,
stopping as soon as one of them returns out of `processStream`. -/
def runLines (st : StreamState) : List String → StreamState × List Event × LineRes
  | [] => (st, [], LineRes.next)
  | l :: rest =>
    if (processLine st l).2.2 = LineRes.halt then processLine st l
    else
      ((runLines (processLine st l).1 rest).1,
       (processLine st l).2.1 ++ (runLines (processLine st l).1 rest).2.1,
       (runLines (processLine st l).1 rest).2.2)

/-- The `processStream` read loop over the successive outcomes of
`reader.read()`.  End-of-stream completes the session; a chunk is split on
newlines and fed to the line loop (an early return ends the loop, leaving
later chunks unread); an `AbortError` rejection is mapped to `stopped` by
the catch block; any other rejection is mapped to `error`. -/
def processEvents (st : StreamState) : List ReadEvent → StreamState × List Event
  | [] =>
    ({ st with connectionStatus := ConnectionStatus.completed, isStreaming := false },
     [Event.onStatusChange ConnectionStatus.completed, Event.onComplete])
  | ReadEvent.abort :: _ =>
    ({ st with connectionStatus := ConnectionStatus.stopped },
     [Event.onStatusChange ConnectionStatus.stopped])
  | ReadEvent.fail :: _ =>
    ({ st with
        error := some "Error processing stream"
        isStreaming := false
        connectionStatus := ConnectionStatus.error },
     [Event.onStatusChange ConnectionStatus.error, Event.onError "Error processing stream"])
  | ReadEvent.chunk c :: rest =>
    if (runLines st (strSplitLines c)).2.2 = LineRes.halt then
      ((runLines st (strSplitLines c)).1, (runLines st (strSplitLines c)).2.1)
    else
      ((processEvents (runLines st (strSplitLines c)).1 rest).1,
       (runLines st (strSplitLines c)).2.1 ++
         (processEvents (runLines st (strSplitLines c)).1 rest).2)

/-- Outcome of the `fetch` phase of `startStreaming`: a successful
response with a body (whose reads are the given list), a non-success HTTP
status, a missing body, an `AbortError` rejection, or another network
rejection with the given message. -/
inductive FetchResult where
  | ok (body : List ReadEvent)
  | httpError (status : Nat)
  | noBody
  | abortErr
  | networkError (message : String)

/-- `startStreaming`: a no-op while a session is streaming; otherwise
resets the data and error, moves to `connecting`, issues the request, and
either fails into `error`/`stopped` via the outer catch or moves to
`connected` and runs the read loop. -/
def startStreaming (st : StreamState) (fr : FetchResult) : StreamState × List Event :=
  if st.isStreaming then (st, [])
  else
    let st2 : StreamState :=
      { st with
        isStreaming := true
        error := none
        data := []
        connectionStatus := ConnectionStatus.connecting }
    let evs0 : List Event := [Event.onStatusChange ConnectionStatus.connecting]
    match fr with
    | FetchResult.httpError status =>
      let msg := "Failed to start streaming: HTTP error! status: " ++ toString status
      ({ st2 with
          error := some msg
          isStreaming := false
          connectionStatus := ConnectionStatus.error },
       evs0 ++ [Event.onStatusChange ConnectionStatus.error, Event.onError msg])
    | FetchResult.noBody =>
      let msg := "Failed to start streaming: No response body"
      ({ st2 with
          error := some msg
          isStreaming := false
          connectionStatus := ConnectionStatus.error },
       evs0 ++ [Event.onStatusChange ConnectionStatus.error, Event.onError msg])
    | FetchResult.networkError m =>
      let msg := "Failed to start streaming: " ++ m
      ({ st2 with
          error := some msg
          isStreaming := false
          connectionStatus := ConnectionStatus.error },
       evs0 ++ [Event.onStatusChange ConnectionStatus.error, Event.onError msg])
    | FetchResult.abortErr =>
      ({ st2 with connectionStatus := ConnectionStatus.stopped },
       evs0 ++ [Event.onStatusChange ConnectionStatus.stopped])
    | FetchResult.ok body =>
      let st3 := { st2 with connectionStatus := ConnectionStatus.connected }
      let r := processEvents st3 body
      (r.1, evs0 ++ [Event.onStatusChange ConnectionStatus.connected] ++ r.2)

/-- `stopStreaming`: aborts the controller (observable through the read
loop), clears `isStreaming`, and unconditionally sets the status to
`stopped` — with no guard on whether a session is active. -/
def stopStreaming (st : StreamState) : StreamState × List Event :=
  ({ st with isStreaming := false, connectionStatus := ConnectionStatus.stopped },
   [Event.onStatusChange ConnectionStatus.stopped])

/-- The hook's initial state. -/
def initialState : StreamState :=
  { data := [], isStreaming := false, error := none,
    connectionStatus := ConnectionStatus.idle }

/-- The state at the moment `processStream` starts for a fresh session:
data and error reset by `startStreaming`, `isStreaming` set, status
`connected`. -/
def sessionState : StreamState :=
  { data := [], isStreaming := true, error := none,
    connectionStatus := ConnectionStatus.connected }

/-! ### Basic lemmas about the line and read loops -/

/-- Unfolding of the line loop on a line that returns early. -/
theorem runLines_cons_halt (st : StreamState) (l : String) (rest : List String)
    (hl : (processLine st l).2.2 = LineRes.halt) :
    runLines st (l :: rest) = processLine st l := by
  simp only [runLines]
  rw [if_pos hl]

/-- Unfolding of the line loop on a line that falls through. -/
theorem runLines_cons_next (st : StreamState) (l : String) (rest : List String)
    (hl : (processLine st l).2.2 ≠ LineRes.halt) :
    runLines st (l :: rest) =
      ((runLines (processLine st l).1 rest).1,
       (processLine st l).2.1 ++ (runLines (processLine st l).1 rest).2.1,
       (runLines (processLine st l).1 rest).2.2) := by
  simp only [runLines]
  rw [if_neg hl]

/-- A line handler that returns early out of `processStream` does so from
the `"finish"` branch: it clears `isStreaming` and sets the status to
`completed`. -/
theorem handleParsed_halt (st : StreamState) (j : Json)
    (h : (handleParsed st j).2.2 = LineRes.halt) :
    (handleParsed st j).1.isStreaming = false ∧
      (handleParsed st j).1.connectionStatus = ConnectionStatus.completed := by
  unfold handleParsed at h ⊢
  split at h
  next t heq =>
    simp only [heq]
    by_cases hobj : t = "object"
    · rw [if_pos hobj] at h
      simp at h
    · rw [if_neg hobj] at h ⊢
      by_cases hfin : t = "finish"
      · rw [if_pos hfin]
        exact ⟨rfl, rfl⟩
      · rw [if_neg hfin] at h
        simp at h
  next => simp at h

/-- A line after which the line loop stops has completed the session and
cleared `isStreaming`. -/
theorem processLine_halt (st : StreamState) (line : String)
    (h : (processLine st line).2.2 = LineRes.halt) :
    (processLine st line).1.isStreaming = false ∧
      (processLine st line).1.connectionStatus = ConnectionStatus.completed := by
  unfold processLine at h ⊢
  by_cases h1 : strTrim line = ""
  · rw [if_pos h1] at h
    simp at h
  · rw [if_neg h1] at h ⊢
    by_cases h2 : strStartsWith line "data: " = true
    · rw [if_pos h2] at h ⊢
      by_cases h3 : strTrim (strDrop line 6) = "[DONE]"
      · rw [if_pos h3]
        exact ⟨rfl, rfl⟩
      · rw [if_neg h3] at h ⊢
        cases hj : jsonParse (strTrim (strDrop line 6)) with
        | none => rw [hj] at h; simp at h
        | some j =>
          rw [hj] at h
          simp only [hj]
          exact handleParsed_halt _ _ h
    · rw [if_neg h2] at h
      simp at h

/-- When the line loop stops early, its final state has completed the
session and cleared `isStreaming`. -/
theorem runLines_halt (ls : List String) (st : StreamState)
    (h : (runLines st ls).2.2 = LineRes.halt) :
    (runLines st ls).1.isStreaming = false ∧
      (runLines st ls).1.connectionStatus = ConnectionStatus.completed := by
  induction ls generalizing st with
  | nil => simp [runLines] at h
  | cons l rest ih =>
    by_cases hl : (processLine st l).2.2 = LineRes.halt
    · rw [runLines_cons_halt st l rest hl]
      exact processLine_halt st l hl
    · rw [runLines_cons_next st l rest hl] at h ⊢
      exact ih _ h

/-- The line loop over a concatenation, when the first part falls
through, is the composition of the two loops. -/
theorem runLines_append (st : StreamState) (ls ls' : List String)
    (h : (runLines st ls).2.2 = LineRes.next) :
    runLines st (ls ++ ls') =
      ((runLines (runLines st ls).1 ls').1,
       (runLines st ls).2.1 ++ (runLines (runLines st ls).1 ls').2.1,
       (runLines (runLines st ls).1 ls').2.2) := by
  induction ls generalizing st with
  | nil => simp [runLines]
  | cons l rest ih =>
    by_cases hl : (processLine st l).2.2 = LineRes.halt
    · rw [runLines_cons_halt st l rest hl] at h
      rw [hl] at h
      exact absurd h (by simp)
    · rw [runLines_cons_next st l rest hl] at h
      simp only at h
      rw [List.cons_append, runLines_cons_next st l (rest ++ ls') hl,
        runLines_cons_next st l rest hl, ih _ h]
      simp

/-- Unfolding of the read loop on a chunk whose line loop returned early:
the remaining reads are never performed. -/
theorem processEvents_chunk_halt (st : StreamState) (c : String) (rest : List ReadEvent)
    (hl : (runLines st (strSplitLines c)).2.2 = LineRes.halt) :
    processEvents st (ReadEvent.chunk c :: rest) =
      ((runLines st (strSplitLines c)).1, (runLines st (strSplitLines c)).2.1) := by
  simp only [processEvents]
  rw [if_pos hl]

/-- Unfolding of the read loop on a chunk whose line loop fell through. -/
theorem processEvents_chunk_next (st : StreamState) (c : String) (rest : List ReadEvent)
    (hl : (runLines st (strSplitLines c)).2.2 ≠ LineRes.halt) :
    processEvents st (ReadEvent.chunk c :: rest) =
      ((processEvents (runLines st (strSplitLines c)).1 rest).1,
       (runLines st (strSplitLines c)).2.1 ++
         (processEvents (runLines st (strSplitLines c)).1 rest).2) := by
  simp only [processEvents]
  rw [if_neg hl]

/-- Whenever the read loop ends with status `completed` or `error`, it has
also cleared `isStreaming`; only the `AbortError` path can leave a
terminal status with the flag still set. -/
theorem processEvents_terminal_flag (st : StreamState) (evs : List ReadEvent)
    (h : (processEvents st evs).1.connectionStatus = ConnectionStatus.completed
       ∨ (processEvents st evs).1.connectionStatus = ConnectionStatus.error) :
    (processEvents st evs).1.isStreaming = false := by
  induction evs generalizing st with
  | nil => rfl
  | cons e rest ih =>
    cases e with
    | chunk c =>
      by_cases hl : (runLines st (strSplitLines c)).2.2 = LineRes.halt
      · rw [processEvents_chunk_halt st c rest hl]
        exact (runLines_halt _ _ hl).1
      · rw [processEvents_chunk_next st c rest hl] at h ⊢
        exact ih _ h
    | abort => simp [processEvents] at h
    | fail => rfl

/-! ### Claim theorems -/

/-- Claim C1 (code-bug evidence): the chunk pair
`"data: \x7b\"a\""`, `":1\x7d\n"` together forms the single valid record
`data: \x7b"a":1\x7d` followed by a newline, whose left-to-right
shallow-merge is `\x7b a ↦ 1 \x7d`; yet the read loop — which splits each
chunk on newlines without carrying the trailing partial line over to the
next chunk — ends the session `completed` with an empty accumulated
result, while the same bytes delivered in one chunk yield
`[("a", 1)]`.  The boundary-independence property of the claim therefore
fails on the code. -/
theorem c1_boundary_split_loses_record :
    (processEvents sessionState
        [ReadEvent.chunk "data: \x7b\"a\"", ReadEvent.chunk ":1\x7d\n"]).1.data = []
    ∧ (processEvents sessionState
        [ReadEvent.chunk "data: \x7b\"a\"", ReadEvent.chunk ":1\x7d\n"]).1.connectionStatus
      = ConnectionStatus.completed
    ∧ (processEvents sessionState
        [ReadEvent.chunk "data: \x7b\"a\":1\x7d\n"]).1.data = [("a", Json.num 1)]
    ∧ ([] : List (String × Json)) ≠ [("a", Json.num 1)] :=
  ⟨rfl, rfl, rfl, (List.cons_ne_nil _ _).symm⟩

/-- Claim C2 (counterexample): on the record
`data: \x7b"type":"object","object":\x7b"a":1\x7d\x7d` the code merges the
outer object first — the accumulated result carries the keys `type` and
`object` besides the nested `a`, instead of the nested payload alone —
and the observer is notified first with the outer object, then with the
nested one. -/
theorem c2_outer_object_also_merged_counterexample :
    ((processLine sessionState
        "data: \x7b\"type\":\"object\",\"object\":\x7b\"a\":1\x7d\x7d").1.data.map Prod.fst)
      = ["type", "object", "a"]
    ∧ ((processLine sessionState
        "data: \x7b\"type\":\"object\",\"object\":\x7b\"a\":1\x7d\x7d").1.data.map Prod.fst)
      ≠ ["a"]
    ∧ (processLine sessionState
        "data: \x7b\"type\":\"object\",\"object\":\x7b\"a\":1\x7d\x7d").2.1
      = [Event.onData (some (Json.obj [("type", Json.str "object"),
            ("object", Json.obj [("a", Json.num 1)])])),
         Event.onData (some (Json.obj [("a", Json.num 1)]))] :=
  ⟨rfl, by decide, rfl⟩

/-- Claim C2 (amended): for every record whose parsed value is an object
with discriminator `type = "object"` and a nested `object` payload, the
code first shallow-merges the outer object (notifying `onData` with it)
and then additionally merges the nested payload (notifying with it); the
nested payload is merged in addition to — not instead of — the outer
object, and the line falls through without terminating. -/
theorem c2_nested_merged_in_addition_to_outer (st : StreamState) (line : String)
    (fs : List (String × Json)) (nested : Json)
    (h0 : strTrim line ≠ "")
    (h1 : strStartsWith line "data: " = true)
    (h2 : strTrim (strDrop line 6) ≠ "[DONE]")
    (h3 : jsonParse (strTrim (strDrop line 6)) = some (Json.obj fs))
    (h4 : jsGetField (Json.obj fs) "type" = some (Json.str "object"))
    (h5 : jsGetField (Json.obj fs) "object" = some nested) :
    processLine st line =
      ({ st with data := mergeObj (mergeObj st.data fs) (jsSpreadFields nested) },
       [Event.onData (some (Json.obj fs)), Event.onData (some nested)],
       LineRes.next) := by
  unfold processLine
  rw [if_neg h0, if_pos h1, if_neg h2, h3]
  unfold handleParsed mergeStep
  simp [h4, h5, jsTruthy, jsTypeofObject, jsSpreadFields, spreadOptFields]

/-- Witness for the amended C2, at the concrete record
`data: \x7b"type":"object","object":\x7b"a":1\x7d\x7d` read in an
otherwise-empty session. -/
theorem c2_nested_merged_in_addition_to_outer_witness :
    processLine sessionState
        "data: \x7b\"type\":\"object\",\"object\":\x7b\"a\":1\x7d\x7d" =
      ({ sessionState with
          data := mergeObj
            (mergeObj sessionState.data
              [("type", Json.str "object"), ("object", Json.obj [("a", Json.num 1)])])
            (jsSpreadFields (Json.obj [("a", Json.num 1)])) },
       [Event.onData (some (Json.obj [("type", Json.str "object"),
          ("object", Json.obj [("a", Json.num 1)])])),
        Event.onData (some (Json.obj [("a", Json.num 1)]))],
       LineRes.next) :=
  c2_nested_merged_in_addition_to_outer sessionState
    "data: \x7b\"type\":\"object\",\"object\":\x7b\"a\":1\x7d\x7d"
    [("type", Json.str "object"), ("object", Json.obj [("a", Json.num 1)])]
    (Json.obj [("a", Json.num 1)])
    (by decide) (by decide) (by decide) rfl rfl rfl

/-- Claim C3 (counterexample): the single chunk
`data: \x7b"type":"finish"\x7d\n` does transition the status directly to
`completed`, but a merge occurs: the outer object is shallow-merged
before the `finish` discriminator is checked, so the accumulated result
is `\x7b type ↦ "finish" \x7d`, not empty. -/
theorem c3_finish_merges_outer_counterexample :
    (processEvents sessionState
        [ReadEvent.chunk "data: \x7b\"type\":\"finish\"\x7d\n"]).1.data
      = [("type", Json.str "finish")]
    ∧ (processEvents sessionState
        [ReadEvent.chunk "data: \x7b\"type\":\"finish\"\x7d\n"]).1.data ≠ [] :=
  ⟨rfl, List.cons_ne_nil _ _⟩

/-- Claim C3 (amended): processing the single chunk
`data: \x7b"type":"finish"\x7d\n` transitions the status directly to
`completed` (one status notification, then `onComplete`), clears
`isStreaming`, and leaves no error — but the accumulated result is the
merged outer object `\x7b type ↦ "finish" \x7d` rather than empty, and
`onData` fires once with that outer object before completion. -/
theorem c3_finish_completes_after_merging_outer :
    processEvents sessionState [ReadEvent.chunk "data: \x7b\"type\":\"finish\"\x7d\n"] =
      ({ data := [("type", Json.str "finish")], isStreaming := false, error := none,
         connectionStatus := ConnectionStatus.completed },
       [Event.onData (some (Json.obj [("type", Json.str "finish")])),
        Event.onStatusChange ConnectionStatus.completed, Event.onComplete]) :=
  rfl

/-- Claim C4: a `data: [DONE]` line terminates the session in `completed`
and nothing after the sentinel is processed: the line loop returns at the
sentinel with the completed state and exactly the status/complete
notifications (the lines after it contribute nothing), and once a chunk's
line loop has returned early the remaining buffered reads are never
performed — the outcome is independent of them.  (Confirmed.) -/
theorem c4_done_sentinel_terminates (st : StreamState) (ls ls2 : List String)
    (c : String) (rest rest2 : List ReadEvent)
    (hpre : (runLines st ls).2.2 = LineRes.next)
    (hc : (runLines st (strSplitLines c)).2.2 = LineRes.halt) :
    runLines st (ls ++ "data: [DONE]" :: ls2) =
      ({ (runLines st ls).1 with
          connectionStatus := ConnectionStatus.completed
          isStreaming := false },
       (runLines st ls).2.1 ++
         [Event.onStatusChange ConnectionStatus.completed, Event.onComplete],
       LineRes.halt)
    ∧ processEvents st (ReadEvent.chunk c :: rest) =
        processEvents st (ReadEvent.chunk c :: rest2) := by
  constructor
  · rw [runLines_append st ls ("data: [DONE]" :: ls2) hpre]
    exact rfl
  · rw [processEvents_chunk_halt st c rest hc, processEvents_chunk_halt st c rest2 hc]

/-- Witness for C4: one valid record before the sentinel, one after it in
the same chunk re-joined as one string, and a further buffered chunk that
makes no difference. -/
theorem c4_done_sentinel_terminates_witness :
    (runLines sessionState ["data: \x7b\"a\":1\x7d"]).2.2 = LineRes.next
    ∧ (runLines sessionState
        (strSplitLines "data: [DONE]\ndata: \x7b\"x\":9\x7d")).2.2 = LineRes.halt
    ∧ (runLines sessionState
        (["data: \x7b\"a\":1\x7d"] ++ "data: [DONE]" :: ["data: \x7b\"b\":2\x7d"]) =
      ({ (runLines sessionState ["data: \x7b\"a\":1\x7d"]).1 with
          connectionStatus := ConnectionStatus.completed
          isStreaming := false },
       (runLines sessionState ["data: \x7b\"a\":1\x7d"]).2.1 ++
         [Event.onStatusChange ConnectionStatus.completed, Event.onComplete],
       LineRes.halt)
    ∧ processEvents sessionState
        (ReadEvent.chunk "data: [DONE]\ndata: \x7b\"x\":9\x7d"
          :: [ReadEvent.chunk "data: \x7b\"b\":2\x7d\n"]) =
        processEvents sessionState
          (ReadEvent.chunk "data: [DONE]\ndata: \x7b\"x\":9\x7d" :: [])) :=
  ⟨rfl, rfl,
    c4_done_sentinel_terminates sessionState ["data: \x7b\"a\":1\x7d"]
      ["data: \x7b\"b\":2\x7d"] "data: [DONE]\ndata: \x7b\"x\":9\x7d"
      [ReadEvent.chunk "data: \x7b\"b\":2\x7d\n"] [] rfl rfl⟩

/-- Claim C5: cancellation always resolves to `stopped` and never to
`error`: an `AbortError` surfacing inside the read loop produces exactly
one `stopped` status notification and no data notification afterwards,
whatever remains buffered; `stopStreaming` itself sets `stopped`; and an
`AbortError` rejection of the fetch (cancel during `connecting`) also
resolves to `stopped`.  (Confirmed.) -/
theorem c5_cancel_always_stopped (stA stB : StreamState) (post : List ReadEvent)
    (hB : stB.isStreaming = false) :
    (processEvents stA (ReadEvent.abort :: post)).1.connectionStatus
      = ConnectionStatus.stopped
    ∧ (processEvents stA (ReadEvent.abort :: post)).2
      = [Event.onStatusChange ConnectionStatus.stopped]
    ∧ (processEvents stA (ReadEvent.abort :: post)).1.connectionStatus
      ≠ ConnectionStatus.error
    ∧ (stopStreaming stA).1.connectionStatus = ConnectionStatus.stopped
    ∧ (startStreaming stB FetchResult.abortErr).1.connectionStatus
      = ConnectionStatus.stopped := by
  refine ⟨rfl, rfl, fun h => ConnectionStatus.noConfusion h, rfl, ?_⟩
  unfold startStreaming
  rw [if_neg (by simp [hB])]

/-- Witness for C5: cancelling a connected session with a further chunk
still buffered, and a fetch-phase abort from the initial state. -/
theorem c5_cancel_always_stopped_witness :
    initialState.isStreaming = false
    ∧ ((processEvents sessionState
          (ReadEvent.abort :: [ReadEvent.chunk "data: \x7b\"a\":1\x7d\n"])).1.connectionStatus
        = ConnectionStatus.stopped
      ∧ (processEvents sessionState
          (ReadEvent.abort :: [ReadEvent.chunk "data: \x7b\"a\":1\x7d\n"])).2
        = [Event.onStatusChange ConnectionStatus.stopped]
      ∧ (processEvents sessionState
          (ReadEvent.abort :: [ReadEvent.chunk "data: \x7b\"a\":1\x7d\n"])).1.connectionStatus
        ≠ ConnectionStatus.error
      ∧ (stopStreaming sessionState).1.connectionStatus = ConnectionStatus.stopped
      ∧ (startStreaming initialState FetchResult.abortErr).1.connectionStatus
        = ConnectionStatus.stopped) :=
  ⟨rfl, c5_cancel_always_stopped sessionState initialState
    [ReadEvent.chunk "data: \x7b\"a\":1\x7d\n"] rfl⟩

/-- Claim C6: a malformed record (prefix matches, remainder is neither the
sentinel nor parseable JSON) leaves the state exactly unchanged, emits no
notification, and falls through, so the following lines process exactly
as they would without it.  (Confirmed.) -/
theorem c6_malformed_line_skipped (st : StreamState) (line : String) (rest : List String)
    (h0 : strTrim line ≠ "")
    (h1 : strStartsWith line "data: " = true)
    (h2 : strTrim (strDrop line 6) ≠ "[DONE]")
    (h3 : jsonParse (strTrim (strDrop line 6)) = none) :
    processLine st line = (st, [], LineRes.next)
    ∧ runLines st (line :: rest) = runLines st rest := by
  have hp : processLine st line = (st, [], LineRes.next) := by
    unfold processLine
    rw [if_neg h0, if_pos h1, if_neg h2, h3]
  refine ⟨hp, ?_⟩
  rw [runLines_cons_next st line rest
      (by rw [hp]; exact fun hc => LineRes.noConfusion hc), hp]
  exact rfl

/-- Witness for C6: the malformed record `data: \x7bbad json` followed by
a valid record. -/
theorem c6_malformed_line_skipped_witness :
    strTrim "data: \x7bbad json" ≠ ""
    ∧ strStartsWith "data: \x7bbad json" "data: " = true
    ∧ strTrim (strDrop "data: \x7bbad json" 6) ≠ "[DONE]"
    ∧ jsonParse (strTrim (strDrop "data: \x7bbad json" 6)) = none
    ∧ (processLine sessionState "data: \x7bbad json" = (sessionState, [], LineRes.next)
      ∧ runLines sessionState ("data: \x7bbad json" :: ["data: \x7b\"a\":1\x7d"]) =
          runLines sessionState ["data: \x7b\"a\":1\x7d"]) :=
  ⟨by decide, rfl, by decide, rfl,
    c6_malformed_line_skipped sessionState "data: \x7bbad json"
      ["data: \x7b\"a\":1\x7d"] (by decide) rfl (by decide) rfl⟩

/-- Claim C7: `startStreaming` while a session is streaming returns
immediately: the state is unchanged, no notification fires, and no
request outcome is even consulted.  (Confirmed.) -/
theorem c7_start_noop_while_streaming (st : StreamState) (fr : FetchResult)
    (h : st.isStreaming = true) :
    startStreaming st fr = (st, []) := by
  unfold startStreaming
  rw [if_pos h]

/-- Witness for C7: starting again during a connected session, with the
transport ready to answer 500, changes nothing. -/
theorem c7_start_noop_while_streaming_witness :
    sessionState.isStreaming = true
    ∧ startStreaming sessionState (FetchResult.httpError 500) = (sessionState, []) :=
  ⟨rfl, c7_start_noop_while_streaming sessionState (FetchResult.httpError 500) rfl⟩

/-- Claim C8: a non-success HTTP status or an absent body ends the session
in `error`, with the error message naming the failing status (or the
"No response body" reason), an empty accumulated result, and no `onData`
notification — only `connecting`, the `error` transition, and `onError`
are observed.  (Confirmed.) -/
theorem c8_transport_rejection_errors_without_data (st : StreamState) (status : Nat)
    (h : st.isStreaming = false) :
    (startStreaming st (FetchResult.httpError status)).1.connectionStatus
      = ConnectionStatus.error
    ∧ (startStreaming st (FetchResult.httpError status)).1.error
      = some ("Failed to start streaming: HTTP error! status: " ++ toString status)
    ∧ (startStreaming st (FetchResult.httpError status)).1.data = []
    ∧ (startStreaming st (FetchResult.httpError status)).2
      = [Event.onStatusChange ConnectionStatus.connecting,
         Event.onStatusChange ConnectionStatus.error,
         Event.onError ("Failed to start streaming: HTTP error! status: " ++ toString status)]
    ∧ (startStreaming st FetchResult.noBody).1.connectionStatus = ConnectionStatus.error
    ∧ (startStreaming st FetchResult.noBody).1.error
      = some "Failed to start streaming: No response body"
    ∧ (startStreaming st FetchResult.noBody).1.data = [] := by
  have hn : ¬ st.isStreaming = true := by simp [h]
  unfold startStreaming
  simp [if_neg hn]

/-- Witness for C8: an HTTP 500 (and a missing body) from the initial
state. -/
theorem c8_transport_rejection_errors_without_data_witness :
    initialState.isStreaming = false
    ∧ ((startStreaming initialState (FetchResult.httpError 500)).1.connectionStatus
        = ConnectionStatus.error
      ∧ (startStreaming initialState (FetchResult.httpError 500)).1.error
        = some ("Failed to start streaming: HTTP error! status: " ++ toString 500)
      ∧ (startStreaming initialState (FetchResult.httpError 500)).1.data = []
      ∧ (startStreaming initialState (FetchResult.httpError 500)).2
        = [Event.onStatusChange ConnectionStatus.connecting,
           Event.onStatusChange ConnectionStatus.error,
           Event.onError ("Failed to start streaming: HTTP error! status: " ++ toString 500)]
      ∧ (startStreaming initialState FetchResult.noBody).1.connectionStatus
        = ConnectionStatus.error
      ∧ (startStreaming initialState FetchResult.noBody).1.error
        = some "Failed to start streaming: No response body"
      ∧ (startStreaming initialState FetchResult.noBody).1.data = []) :=
  ⟨rfl, c8_transport_rejection_errors_without_data initialState 500 rfl⟩

/-- Claim C9 (counterexample): the `AbortError` catch branch of the read
loop sets the terminal status `stopped` but does not clear `isStreaming` —
after an abort raised inside the loop (as teardown does, without going
through `stopStreaming`), the state holds a terminal status with the flag
still `true`. -/
theorem c9_abort_leaves_isStreaming_counterexample :
    (processEvents sessionState [ReadEvent.abort]).1.connectionStatus
      = ConnectionStatus.stopped
    ∧ (processEvents sessionState [ReadEvent.abort]).1.isStreaming = true :=
  ⟨rfl, rfl⟩

/-- Claim C9 (amended): every path into `completed` or `error` clears
`isStreaming`, but the `AbortError` path into `stopped` leaves
`isStreaming` exactly as it was — the flag is cleared on cancellation
only because `stopStreaming` (or `reset`) clears it itself. -/
theorem c9_terminal_clears_flag_except_abort (st : StreamState)
    (evs post : List ReadEvent)
    (h : (processEvents st evs).1.connectionStatus = ConnectionStatus.completed
       ∨ (processEvents st evs).1.connectionStatus = ConnectionStatus.error) :
    (processEvents st evs).1.isStreaming = false
    ∧ (processEvents st (ReadEvent.abort :: post)).1.connectionStatus
      = ConnectionStatus.stopped
    ∧ (processEvents st (ReadEvent.abort :: post)).1.isStreaming = st.isStreaming
    ∧ (stopStreaming st).1.isStreaming = false :=
  ⟨processEvents_terminal_flag st evs h, rfl, rfl, rfl⟩

/-- Witness for the amended C9, at an immediately-ending stream. -/
theorem c9_terminal_clears_flag_except_abort_witness :
    ((processEvents sessionState ([] : List ReadEvent)).1.connectionStatus
        = ConnectionStatus.completed
      ∨ (processEvents sessionState ([] : List ReadEvent)).1.connectionStatus
        = ConnectionStatus.error)
    ∧ ((processEvents sessionState ([] : List ReadEvent)).1.isStreaming = false
      ∧ (processEvents sessionState (ReadEvent.abort :: ([] : List ReadEvent))).1.connectionStatus
        = ConnectionStatus.stopped
      ∧ (processEvents sessionState (ReadEvent.abort :: ([] : List ReadEvent))).1.isStreaming
        = sessionState.isStreaming
      ∧ (stopStreaming sessionState).1.isStreaming = false) :=
  ⟨Or.inl rfl, c9_terminal_clears_flag_except_abort sessionState [] [] (Or.inl rfl)⟩

/-- Claim C10: `stopStreaming` with no active session (status `idle`,
not streaming) is not a pure no-op: it unconditionally sets the status to
`stopped` — a transition the state machine does not list — and fires
`onStatusChange` with `stopped`.  (Confirmed.) -/
theorem c10_stop_when_idle_sets_stopped (st : StreamState)
    (h : st.connectionStatus = ConnectionStatus.idle) :
    (stopStreaming st).1.connectionStatus = ConnectionStatus.stopped
    ∧ (stopStreaming st).2 = [Event.onStatusChange ConnectionStatus.stopped]
    ∧ (stopStreaming st).1.connectionStatus ≠ st.connectionStatus := by
  refine ⟨rfl, rfl, ?_⟩
  rw [h]
  exact fun hc => ConnectionStatus.noConfusion hc

/-- Witness for C10: stopping from the initial state. -/
theorem c10_stop_when_idle_sets_stopped_witness :
    initialState.connectionStatus = ConnectionStatus.idle
    ∧ ((stopStreaming initialState).1.connectionStatus = ConnectionStatus.stopped
      ∧ (stopStreaming initialState).2 = [Event.onStatusChange ConnectionStatus.stopped]
      ∧ (stopStreaming initialState).1.connectionStatus ≠ initialState.connectionStatus) :=
  ⟨rfl, c10_stop_when_idle_sets_stopped initialState rfl⟩

end Streaming
